import Mathlib

/-!
Verification of the provisioning API of mautrix-signal
(`mautrix_signal/web/provisioning_api.py`), a shallow embedding of the
`ProvisioningAPI` class: bearer-token authentication (`check_token`), the
legacy link API (`link`, `link_wait`), the new link API (`link_new`,
`link_wait_for_scan`, `link_wait_for_account`), and the cancellation-shielded
finish-link helpers (`_shielded_link`, `_try_shielded_link`).

Remote collaborators (`bridge.signal.start_link`, `wait_for_scan`,
`finish_link`, `user.on_signin`) are modelled by passing their results in as
parameters and recording in the output whether each was invoked.  Python's
`asyncio.shield` is modelled explicitly by `awaitRemote`: awaiting a shielded
task never delivers a cancellation signal to the inner task, while awaiting an
unshielded task would.
-/

set_option autoImplicit false
set_option linter.unusedVariables false

namespace Provisioning

/-- A value of a parsed JSON response payload, flattened to string fields:
`web.json_response({...})` bodies are objects whose leaves are strings here. -/
abbrev JsonFields := List (String × String)

/-- Body of an HTTP response as the handlers build it:
`errorJson msg` is the literal text `'{"error": "<msg>"}'` that every error
raise in the file passes as `text=...`; `json fields` is a
`web.json_response(...)` payload; `text s` is a raw non-JSON text body
(only `link_wait_for_scan`'s failure path produces one). -/
inductive RespBody where
  | errorJson (msg : String)
  | json (fields : JsonFields)
  | text (s : String)
  deriving DecidableEq, Repr

/-- Rendering of a response body to the bytes on the wire, documenting that
`errorJson msg` stands for the JSON object text `{"error": "<msg>"}`. -/
def renderBody : RespBody → String
  | RespBody.errorJson msg => "\x7b\"error\": \"" ++ msg ++ "\"\x7d"
  | RespBody.json _ => "<json object>"
  | RespBody.text s => s

/-- `ProvisioningAPI._acao_headers`: the permissive cross-origin headers. -/
def acao_headers : List (String × String) :=
  [("Access-Control-Allow-Origin", "*"),
   ("Access-Control-Allow-Headers", "Authorization, Content-Type"),
   ("Access-Control-Allow-Methods", "POST, OPTIONS")]

/-- `ProvisioningAPI._headers`: ACAO headers plus the JSON content type;
passed to every raised `HTTPException`. -/
def headers : List (String × String) :=
  acao_headers ++ [("Content-Type", "application/json")]

/-- Headers of an aiohttp `web.json_response(...)` called WITHOUT a
`headers=` argument: aiohttp sets only the content type, so no ACAO headers
are attached (this happens on exactly one path, `_try_shielded_link`'s
success response). -/
def default_json_headers : List (String × String) :=
  [("Content-Type", "application/json")]

/-- An HTTP response (either returned or raised as an `HTTPException`). -/
structure Response where
  status : Nat
  body : RespBody
  headers : List (String × String)
  deriving DecidableEq, Repr

/-- Outcome of `ProvisioningAPI.check_token`: one of the two raised error
classes, or the authenticated user id. -/
inductive AuthResult where
  | badRequest (msg : String)
  | forbidden (msg : String)
  | ok (userId : String)
  deriving DecidableEq, Repr

/-- `ProvisioningAPI.check_token`.  `authHeader` is
`request.headers["Authorization"]` (`none` = absent, raising `KeyError`);
`userIdParam` is `request.query["user_id"]` (`none` = absent).

The source wraps `token = token[len("Bearer ") :]` in an
`except IndexError` handler raising a "Malformed Authorization header"
bad request, but Python string slicing never raises `IndexError`
(`"abc"[7:]` is simply `""`), so that handler is unreachable: the model has
no malformed branch, and the credential compared to the shared secret is
the header value with its first seven characters removed (`String.drop 7`,
matching `len("Bearer ") = 7`; no check that the prefix is `"Bearer "`). -/
def check_token (sharedSecret : String) (authHeader : Option String)
    (userIdParam : Option String) : AuthResult :=
  match authHeader with
  | none => AuthResult.badRequest "Missing Authorization header"
  | some hdr =>
    let token := hdr.drop 7
    if token ≠ sharedSecret then
      AuthResult.forbidden "Invalid token"
    else
      match userIdParam with
      | none => AuthResult.badRequest "Missing user_id query param"
      | some userId => AuthResult.ok userId

/-- `mausignald.types.Address`, restricted to the fields the file reads. -/
structure Address where
  number : String
  uuid : String
  deriving DecidableEq, Repr

/-- `Address.serialize()` as a flat JSON object. -/
def serializeAddress (a : Address) : JsonFields :=
  [("number", a.number), ("uuid", a.uuid)]

/-- `mausignald.types.Account`, restricted to the address field the file
reads. -/
structure Account where
  address : Address
  deriving DecidableEq, Repr

/-- The session returned by `bridge.signal.start_link()`. -/
structure Session where
  session_id : String
  uri : String
  deriving DecidableEq, Repr

/-- `asdict(sess)` for a `Session`. -/
def asdictSession (s : Session) : JsonFields :=
  [("session_id", s.session_id), ("uri", s.uri)]

/-- A failure raised by `bridge.signal.finish_link`:
`mausignald.errors.TimeoutException`, `mausignald.errors.InternalError`
(carrying its `exceptions` list of nested exception class names), or any
other exception (with a human-readable description). -/
inductive LinkError where
  | timeoutException
  | internalError (exceptions : List String)
  | otherException (desc : String)
  deriving DecidableEq, Repr

/-- Result of the remote `finish_link` call once it resolves. -/
inductive FinishLinkResult where
  | ok (account : Account)
  | exn (e : LinkError)
  deriving DecidableEq, Repr

/-- What happens first while `_try_shielded_link` awaits the (shielded)
`_shielded_link` coroutine: either the remote finish-link handshake
resolves, or the caller's own cancellation fires while the handshake is
still pending. -/
inductive AwaitEvent where
  | resolved (r : FinishLinkResult)
  | callerCancelled
  deriving DecidableEq, Repr

/-- What the outer `await` observes. -/
inductive OuterAwait where
  | cancelledError
  | inner (r : FinishLinkResult)
  deriving DecidableEq, Repr

/-- Model of awaiting the remote finish-link task, parameterised by whether
the task is wrapped in `asyncio.shield`.  Returns what the outer `await`
sees, paired with whether a cancellation signal was delivered to the inner
task.  Per asyncio semantics: if the caller is cancelled while the task is
pending, the outer `await` raises `CancelledError` either way, but a
shielded inner task receives no cancellation and keeps running to its own
conclusion, while an unshielded one is cancelled. -/
def awaitRemote (shielded : Bool) (ev : AwaitEvent) : OuterAwait × Bool :=
  match ev with
  | AwaitEvent.resolved r => (OuterAwait.inner r, false)
  | AwaitEvent.callerCancelled => (OuterAwait.cancelledError, !shielded)

/-- `ProvisioningAPI._shielded_link`: runs `finish_link(session_id,
device_name, overwrite=True)`; on success calls `user.on_signin(account)`
and returns the account; on any exception it only logs and re-raises.
Returns the propagated result paired with the `on_signin` side effect. -/
def shielded_link (r : FinishLinkResult) : Except LinkError Account × Option Account :=
  match r with
  | FinishLinkResult.ok account => (Except.ok account, some account)
  | FinishLinkResult.exn e => (Except.error e, none)

/-- Everything observable about one run of a wait-style handler: the HTTP
response, whether the remote `finish_link` handshake was started, whether a
cancellation signal was delivered to that remote call, and the
`user.on_signin` side effect. -/
structure HandlerOutcome where
  response : Response
  finishLinkStarted : Bool
  remoteCancelSignalled : Bool
  signedIn : Option Account
  deriving DecidableEq, Repr

/-- `ProvisioningAPI._try_shielded_link`: awaits
`asyncio.shield(self._shielded_link(user, session_id, device_name))` and
translates the outcome.  `except asyncio.CancelledError` → HTTP 500
`"Client cancelled link wait request (<session_id>) before it finished"`;
`except TimeoutException` → HTTP 400 `"Signal linking timed out"`;
`except InternalError` with `"java.io.IOException" in ie.exceptions` →
HTTP 400 `"Signald websocket disconnected before linking finished"`,
otherwise HTTP 500 `"Fatal error in Signal linking"`; any other exception →
the same HTTP 500; success → `web.json_response(account.address.serialize())`
(note: no `headers=` argument). -/
def try_shielded_link (session_id : String) (device_name : String)
    (ev : AwaitEvent) : HandlerOutcome :=
  let (outer, cancelSignalled) := awaitRemote true ev
  match outer with
  | OuterAwait.cancelledError =>
    let error_text :=
      "Client cancelled link wait request (" ++ session_id ++ ") before it finished"
    { response := ⟨500, RespBody.errorJson error_text, headers⟩
      finishLinkStarted := true
      remoteCancelSignalled := cancelSignalled
      signedIn := none }
  | OuterAwait.inner r =>
    match shielded_link r with
    | (Except.ok account, signedIn) =>
      { response := ⟨200, RespBody.json (serializeAddress account.address),
                     default_json_headers⟩
        finishLinkStarted := true
        remoteCancelSignalled := cancelSignalled
        signedIn := signedIn }
    | (Except.error LinkError.timeoutException, signedIn) =>
      { response := ⟨400, RespBody.errorJson "Signal linking timed out", headers⟩
        finishLinkStarted := true
        remoteCancelSignalled := cancelSignalled
        signedIn := signedIn }
    | (Except.error (LinkError.internalError exns), signedIn) =>
      if "java.io.IOException" ∈ exns then
        { response := ⟨400,
            RespBody.errorJson "Signald websocket disconnected before linking finished",
            headers⟩
          finishLinkStarted := true
          remoteCancelSignalled := cancelSignalled
          signedIn := signedIn }
      else
        { response := ⟨500, RespBody.errorJson "Fatal error in Signal linking", headers⟩
          finishLinkStarted := true
          remoteCancelSignalled := cancelSignalled
          signedIn := signedIn }
    | (Except.error (LinkError.otherException _), signedIn) =>
      { response := ⟨500, RespBody.errorJson "Fatal error in Signal linking", headers⟩
        finishLinkStarted := true
        remoteCancelSignalled := cancelSignalled
        signedIn := signedIn }

/-- The `user.command_status` dict as the link API writes and reads it:
`{"action": ..., "session_id": ..., "device_name": ...}`. -/
structure CommandStatus where
  action : String
  session_id : String
  device_name : String
  deriving DecidableEq, Repr

/-- The per-user state the handlers read and write: whether
`user.is_logged_in()` holds, and the `user.command_status` slot
(`none` models a falsy/absent `command_status`). -/
structure UserState where
  loggedIn : Bool
  commandStatus : Option CommandStatus
  deriving DecidableEq, Repr

/-- The fields of a parsed request JSON body that the handlers read
(`data["session_id"]`, `data.get("device_name", ...)`); `none` models an
absent key. A request whose body fails to parse (`json.JSONDecodeError`)
is modelled as `none` at the `Option ReqBody` level in each handler. -/
structure ReqBody where
  session_id : Option String
  device_name : Option String
  deriving DecidableEq, Repr

/-- The HTTP 409 raised when the user is already logged in. -/
def alreadyLoggedInResponse : Response :=
  ⟨409, RespBody.errorJson "You\x27re already logged in", headers⟩

/-- The HTTP 400 raised when the request body is not valid JSON. -/
def malformedJsonResponse : Response :=
  ⟨400, RespBody.errorJson "Malformed JSON", headers⟩

/-- `ProvisioningAPI._get_request_data` (after `check_token` resolved the
user): raises HTTP 409 if the user is already logged in, then parses the
request body, raising HTTP 400 on `json.JSONDecodeError`. -/
def get_request_data (user : UserState) (body : Option ReqBody) :
    Except Response ReqBody :=
  if user.loggedIn then
    Except.error alreadyLoggedInResponse
  else
    match body with
    | none => Except.error malformedJsonResponse
    | some data => Except.ok data

/-- Observable result of a link-start handler (`link` / `link_new`): the
response, whether the remote `bridge.signal.start_link()` was invoked, and
the user state afterwards. -/
structure StartOutcome where
  response : Response
  startLinkCalled : Bool
  newState : UserState
  deriving DecidableEq, Repr

/-- `ProvisioningAPI.link` (legacy, after `check_token`): rejects an
already-logged-in user with HTTP 409; parses the body (HTTP 400 on bad
JSON); reads `device_name` with default `"Mautrix-Signal bridge"`; calls
`start_link()` (its result is the `sess` parameter); overwrites
`user.command_status` with the Link record; returns `{"uri": sess.uri}`
with ACAO headers. -/
def link (user : UserState) (body : Option ReqBody) (sess : Session) :
    StartOutcome :=
  if user.loggedIn then
    ⟨alreadyLoggedInResponse, false, user⟩
  else
    match body with
    | none => ⟨malformedJsonResponse, false, user⟩
    | some data =>
      let device_name := data.device_name.getD "Mautrix-Signal bridge"
      let newStatus : CommandStatus := ⟨"Link", sess.session_id, device_name⟩
      ⟨⟨200, RespBody.json [("uri", sess.uri)], acao_headers⟩,
       true,
       { user with commandStatus := some newStatus }⟩

/-- `ProvisioningAPI.link_new` (current, after `check_token`): via
`_get_request_data`, rejects an already-logged-in user with HTTP 409 and
bad JSON with HTTP 400; otherwise calls `start_link()` and returns
`asdict(sess)` with ACAO headers.  It does not touch `command_status`. -/
def link_new (user : UserState) (body : Option ReqBody) (sess : Session) :
    StartOutcome :=
  match get_request_data user body with
  | Except.error resp => ⟨resp, false, user⟩
  | Except.ok _ => ⟨⟨200, RespBody.json (asdictSession sess), acao_headers⟩, true, user⟩

/-- `ProvisioningAPI.link_wait` (legacy, after `check_token`): if
`not user.command_status or user.command_status["action"] != "Link"`,
raises HTTP 400 `"No Signal linking started"` without touching the remote
client; otherwise recovers `session_id` / `device_name` from
`command_status` and delegates to `_try_shielded_link`.  Note: there is no
`is_logged_in` check on this path. -/
def link_wait (user : UserState) (ev : AwaitEvent) : HandlerOutcome :=
  match user.commandStatus with
  | none =>
    { response := ⟨400, RespBody.errorJson "No Signal linking started", headers⟩
      finishLinkStarted := false
      remoteCancelSignalled := false
      signedIn := none }
  | some cs =>
    if cs.action ≠ "Link" then
      { response := ⟨400, RespBody.errorJson "No Signal linking started", headers⟩
        finishLinkStarted := false
        remoteCancelSignalled := false
        signedIn := none }
    else
      try_shielded_link cs.session_id cs.device_name ev

/-- Result of the remote `bridge.signal.wait_for_scan(session_id)` call:
either it returned, or it raised an exception whose string form is `msg`. -/
inductive ScanResult where
  | ok
  | exn (msg : String)
  deriving DecidableEq, Repr

/-- Observable result of `link_wait_for_scan`: the response and whether the
remote `wait_for_scan` was invoked. -/
structure ScanOutcome where
  response : Response
  waitForScanCalled : Bool
  deriving DecidableEq, Repr

/-- `ProvisioningAPI.link_wait_for_scan` (current, after `check_token`):
`_get_request_data` (HTTP 409 if logged in, HTTP 400 on bad JSON), HTTP 400
`"session_id not provided"` if the key is missing, then awaits
`wait_for_scan(session_id)`.  On success returns `{}` with ACAO headers; on
any exception raises HTTP 400 whose `text` is the PLAIN string
`f"Failed waiting for scan. Error: {e}"` — not an `{"error": ...}` JSON
object — while still sending the JSON content-type headers. -/
def link_wait_for_scan (user : UserState) (body : Option ReqBody)
    (scan : ScanResult) : ScanOutcome :=
  match get_request_data user body with
  | Except.error resp => ⟨resp, false⟩
  | Except.ok data =>
    match data.session_id with
    | none => ⟨⟨400, RespBody.errorJson "session_id not provided", headers⟩, false⟩
    | some _ =>
      match scan with
      | ScanResult.ok => ⟨⟨200, RespBody.json [], acao_headers⟩, true⟩
      | ScanResult.exn msg =>
        ⟨⟨400, RespBody.text ("Failed waiting for scan. Error: " ++ msg), headers⟩, true⟩

/-- `ProvisioningAPI.link_wait_for_account` (current, after `check_token`):
`_get_request_data` (HTTP 409 if logged in, HTTP 400 on bad JSON), HTTP 400
`"session_id not provided"` if the key is missing, `device_name` defaulted
to `"Mautrix-Signal bridge"`, then delegates to `_try_shielded_link`. -/
def link_wait_for_account (user : UserState) (body : Option ReqBody)
    (ev : AwaitEvent) : HandlerOutcome :=
  match get_request_data user body with
  | Except.error resp =>
    { response := resp, finishLinkStarted := false
      remoteCancelSignalled := false, signedIn := none }
  | Except.ok data =>
    match data.session_id with
    | none =>
      { response := ⟨400, RespBody.errorJson "session_id not provided", headers⟩
        finishLinkStarted := false
        remoteCancelSignalled := false
        signedIn := none }
    | some session_id =>
      let device_name := data.device_name.getD "Mautrix-Signal bridge"
      try_shielded_link session_id device_name ev

/-- The read side of the legacy registry slot, exactly as `link_wait`
recovers a pending attempt: the stored `command_status`, provided it exists
and its action is `"Link"`. -/
def getPending (user : UserState) : Option CommandStatus :=
  match user.commandStatus with
  | none => none
  | some cs => if cs.action = "Link" then some cs else none

/-- C1: for both wait-for-completion calls (legacy `link_wait` with a stored
Link record, and current `link_wait_for_account` with a caller-supplied
session id), if the caller's cancellation fires while the remote finish-link
handshake is still pending, no cancellation signal is delivered to the
remote call (the shield), the handshake is still running (it was started and
never cancelled), and the caller receives the HTTP 500 server error saying
the client cancelled the link wait before it finished. -/
theorem c1_caller_cancellation_is_shielded
    (user : UserState) (body : ReqBody) (sid dev : String)
    (hcs : user.commandStatus = some ⟨"Link", sid, dev⟩)
    (hlog : user.loggedIn = false)
    (hsid : body.session_id = some sid) :
    link_wait user AwaitEvent.callerCancelled =
      ⟨⟨500, RespBody.errorJson
          ("Client cancelled link wait request (" ++ sid ++ ") before it finished"),
        headers⟩, true, false, none⟩
    ∧ link_wait_for_account user (some body) AwaitEvent.callerCancelled =
      ⟨⟨500, RespBody.errorJson
          ("Client cancelled link wait request (" ++ sid ++ ") before it finished"),
        headers⟩, true, false, none⟩ := by
  constructor
  · simp [link_wait, hcs, try_shielded_link, awaitRemote]
  · simp [link_wait_for_account, get_request_data, hlog, hsid,
      try_shielded_link, awaitRemote]

/-- Witness for C1 at a concrete user, request body and session id. -/
theorem c1_caller_cancellation_is_shielded_witness :
    link_wait ⟨false, some ⟨"Link", "s1", "dev"⟩⟩ AwaitEvent.callerCancelled =
      ⟨⟨500, RespBody.errorJson
          ("Client cancelled link wait request (" ++ "s1" ++ ") before it finished"),
        headers⟩, true, false, none⟩
    ∧ link_wait_for_account ⟨false, some ⟨"Link", "s1", "dev"⟩⟩
        (some ⟨some "s1", some "dev"⟩) AwaitEvent.callerCancelled =
      ⟨⟨500, RespBody.errorJson
          ("Client cancelled link wait request (" ++ "s1" ++ ") before it finished"),
        headers⟩, true, false, none⟩ :=
  c1_caller_cancellation_is_shielded ⟨false, some ⟨"Link", "s1", "dev"⟩⟩
    ⟨some "s1", some "dev"⟩ "s1" "dev" rfl rfl rfl

/-- C2: the classification of a failed finish-link handshake in
`_try_shielded_link` is a total function of the failure and yields exactly
one response per failure: a `TimeoutException` yields HTTP 400
`"Signal linking timed out"`; an `InternalError` whose `exceptions` list
contains `"java.io.IOException"` yields HTTP 400 about the websocket
disconnecting (not a 500 server error); an `InternalError` without that
marker, and any other exception, yield the HTTP 500 fatal error. -/
theorem c2_error_classification_total (sid dev d : String) (exns : List String) :
    (try_shielded_link sid dev
        (AwaitEvent.resolved (FinishLinkResult.exn LinkError.timeoutException))).response
      = ⟨400, RespBody.errorJson "Signal linking timed out", headers⟩
    ∧ ("java.io.IOException" ∈ exns →
        (try_shielded_link sid dev
            (AwaitEvent.resolved (FinishLinkResult.exn (LinkError.internalError exns)))).response
          = ⟨400, RespBody.errorJson
              "Signald websocket disconnected before linking finished", headers⟩)
    ∧ ("java.io.IOException" ∉ exns →
        (try_shielded_link sid dev
            (AwaitEvent.resolved (FinishLinkResult.exn (LinkError.internalError exns)))).response
          = ⟨500, RespBody.errorJson "Fatal error in Signal linking", headers⟩)
    ∧ (try_shielded_link sid dev
        (AwaitEvent.resolved (FinishLinkResult.exn (LinkError.otherException d)))).response
      = ⟨500, RespBody.errorJson "Fatal error in Signal linking", headers⟩ := by
  refine ⟨rfl, fun h => ?_, fun h => ?_, rfl⟩
  · simp [try_shielded_link, awaitRemote, shielded_link, h]
  · simp [try_shielded_link, awaitRemote, shielded_link, h]

/-- Witness for C2: the IO-disconnect marker present, and absent, at
concrete exception lists. -/
theorem c2_error_classification_total_witness :
    (try_shielded_link "s1" "dev"
        (AwaitEvent.resolved (FinishLinkResult.exn
          (LinkError.internalError ["java.io.IOException"])))).response
      = ⟨400, RespBody.errorJson
          "Signald websocket disconnected before linking finished", headers⟩
    ∧ (try_shielded_link "s1" "dev"
        (AwaitEvent.resolved (FinishLinkResult.exn
          (LinkError.internalError ["org.whispersystems.OtherException"])))).response
      = ⟨500, RespBody.errorJson "Fatal error in Signal linking", headers⟩ :=
  ⟨(c2_error_classification_total "s1" "dev" "x" ["java.io.IOException"]).2.1
      (by decide),
   (c2_error_classification_total "s1" "dev" "x"
      ["org.whispersystems.OtherException"]).2.2.1 (by decide)⟩

/-- C3 counterexample: a user who is already logged in but still has a
legacy Link record in `command_status` is NOT rejected by the legacy
`link_wait` handler — there is no logged-in check on that path: the remote
finish-link handshake is started and the handler answers 200, not 409. -/
theorem c3_counterexample_legacy_wait_ignores_login :
    (link_wait ⟨true, some ⟨"Link", "s1", "dev"⟩⟩
        (AwaitEvent.resolved (FinishLinkResult.ok ⟨⟨"+15551234567", "abcd"⟩⟩))).finishLinkStarted
      = true
    ∧ (link_wait ⟨true, some ⟨"Link", "s1", "dev"⟩⟩
        (AwaitEvent.resolved (FinishLinkResult.ok ⟨⟨"+15551234567", "abcd"⟩⟩))).response.status
      = 200
    ∧ (link_wait ⟨true, some ⟨"Link", "s1", "dev"⟩⟩ AwaitEvent.callerCancelled).response.status
      ≠ 409 := by
  refine ⟨rfl, rfl, ?_⟩
  decide

/-- C3 amended: for every user who is already logged in, the CURRENT
handlers `link_wait_for_scan` and `link_wait_for_account` fail with the
already-logged-in HTTP 409 conflict before any remote work (no scan wait,
no finish-link handshake); the legacy `link_wait` performs no such check. -/
theorem c3_current_wait_rejects_logged_in
    (user : UserState) (body : Option ReqBody) (ev : AwaitEvent)
    (scan : ScanResult) (h : user.loggedIn = true) :
    link_wait_for_scan user body scan = ⟨alreadyLoggedInResponse, false⟩
    ∧ link_wait_for_account user body ev =
        ⟨alreadyLoggedInResponse, false, false, none⟩
    ∧ alreadyLoggedInResponse.status = 409 := by
  refine ⟨?_, ?_, rfl⟩
  · simp [link_wait_for_scan, get_request_data, h]
  · simp [link_wait_for_account, get_request_data, h]

/-- Witness for the amended C3 at a concrete logged-in user. -/
theorem c3_current_wait_rejects_logged_in_witness :
    link_wait_for_scan ⟨true, none⟩ (some ⟨some "s1", none⟩) ScanResult.ok =
      ⟨alreadyLoggedInResponse, false⟩
    ∧ link_wait_for_account ⟨true, none⟩ (some ⟨some "s1", none⟩)
        (AwaitEvent.resolved (FinishLinkResult.ok ⟨⟨"+15551234567", "abcd"⟩⟩)) =
      ⟨alreadyLoggedInResponse, false, false, none⟩
    ∧ alreadyLoggedInResponse.status = 409 :=
  c3_current_wait_rejects_logged_in ⟨true, none⟩ (some ⟨some "s1", none⟩)
    (AwaitEvent.resolved (FinishLinkResult.ok ⟨⟨"+15551234567", "abcd"⟩⟩))
    ScanResult.ok rfl

/-- C4 counterexample: a present but malformed Authorization header (no
well-formed bearer credential at all) does NOT produce the bad-request
malformed-header outcome: since Python string slicing never raises
`IndexError`, the dead `except IndexError` branch is skipped and the
header's tail (`"Malformed"[7:] = "ed"`) is simply compared to the secret,
yielding the forbidden wrong-secret outcome instead. -/
theorem c4_counterexample_malformed_header_forbidden :
    check_token "secret123" (some "Malformed") (some "u")
      = AuthResult.forbidden "Invalid token"
    ∧ check_token "secret123" (some "Malformed") (some "u")
      ≠ AuthResult.badRequest "Malformed Authorization header" := by
  decide

/-- C4 amended: authentication fails with a bad request when the
Authorization header is missing; for every present header the compared
credential is the header minus its first seven characters and a mismatch
yields forbidden (there is no malformed-header outcome — that branch is
unreachable); with a matching credential, a missing `user_id` query
parameter yields a bad request; otherwise authentication succeeds. These
four cases are exhaustive. -/
theorem c4_auth_failure_classes (secret hdr uid : String) :
    check_token secret none (some uid)
      = AuthResult.badRequest "Missing Authorization header"
    ∧ check_token secret none none
      = AuthResult.badRequest "Missing Authorization header"
    ∧ (hdr.drop 7 ≠ secret →
        check_token secret (some hdr) (some uid) = AuthResult.forbidden "Invalid token"
        ∧ check_token secret (some hdr) none = AuthResult.forbidden "Invalid token")
    ∧ (hdr.drop 7 = secret →
        check_token secret (some hdr) none
          = AuthResult.badRequest "Missing user_id query param")
    ∧ (hdr.drop 7 = secret →
        check_token secret (some hdr) (some uid) = AuthResult.ok uid) := by
  refine ⟨rfl, rfl, fun h => ⟨?_, ?_⟩, fun h => ?_, fun h => ?_⟩ <;>
    simp [check_token, h]

/-- Witness for the amended C4: every case instantiated concretely. -/
theorem c4_auth_failure_classes_witness :
    check_token "s3cr3t" none (some "@u:example.com")
      = AuthResult.badRequest "Missing Authorization header"
    ∧ check_token "s3cr3t" (some "Bearer wrong") (some "@u:example.com")
      = AuthResult.forbidden "Invalid token"
    ∧ check_token "s3cr3t" (some "Bearer s3cr3t") none
      = AuthResult.badRequest "Missing user_id query param"
    ∧ check_token "s3cr3t" (some "Bearer s3cr3t") (some "@u:example.com")
      = AuthResult.ok "@u:example.com" :=
  ⟨(c4_auth_failure_classes "s3cr3t" "Bearer wrong" "@u:example.com").1,
   ((c4_auth_failure_classes "s3cr3t" "Bearer wrong" "@u:example.com").2.2.1
      (by decide)).1,
   (c4_auth_failure_classes "s3cr3t" "Bearer s3cr3t" "@u:example.com").2.2.2.1
      (by decide),
   (c4_auth_failure_classes "s3cr3t" "Bearer s3cr3t" "@u:example.com").2.2.2.2
      (by decide)⟩

/-- C5 (code bug evidence): when the remote scan wait raises, the failure
response of `link_wait_for_scan` is HTTP 400 whose body is the raw text
`"Failed waiting for scan. Error: <e>"` — not a `{"error": ...}` JSON
object — while the attached headers still declare the JSON content type. -/
theorem c5_scan_failure_body_is_plain_text :
    (link_wait_for_scan ⟨false, none⟩ (some ⟨some "s1", none⟩)
        (ScanResult.exn "Connection closed")).response
      = ⟨400, RespBody.text "Failed waiting for scan. Error: Connection closed",
          headers⟩
    ∧ renderBody
        (RespBody.text "Failed waiting for scan. Error: Connection closed")
      = "Failed waiting for scan. Error: Connection closed"
    ∧ ("Content-Type", "application/json") ∈ headers := by
  refine ⟨rfl, rfl, ?_⟩
  decide

/-- C6 (code bug evidence): the successful account response of the
wait-for-completion operations is built by `web.json_response(...)` without
a `headers=` argument, so it carries no Access-Control-Allow-Origin header
— unlike every other response in the file. -/
theorem c6_success_response_lacks_acao :
    (link_wait_for_account ⟨false, none⟩ (some ⟨some "s1", some "dev"⟩)
        (AwaitEvent.resolved (FinishLinkResult.ok ⟨⟨"+15551234567", "abcd"⟩⟩))).response.headers
      = default_json_headers
    ∧ ("Access-Control-Allow-Origin", "*") ∉
        (link_wait_for_account ⟨false, none⟩ (some ⟨some "s1", some "dev"⟩)
          (AwaitEvent.resolved (FinishLinkResult.ok ⟨⟨"+15551234567", "abcd"⟩⟩))).response.headers
    ∧ ("Access-Control-Allow-Origin", "*") ∈ acao_headers := by
  refine ⟨rfl, ?_, ?_⟩ <;> decide

/-- C7: for every user who is already logged in, both link-start handlers
(legacy `link` and current `link_new`) fail with the already-logged-in
HTTP 409 conflict, never invoke the remote `start_link`, and leave the
stored state (including the pending-link slot) unchanged. -/
theorem c7_logged_in_link_start_no_remote_call
    (user : UserState) (body : Option ReqBody) (sess : Session)
    (h : user.loggedIn = true) :
    link user body sess = ⟨alreadyLoggedInResponse, false, user⟩
    ∧ link_new user body sess = ⟨alreadyLoggedInResponse, false, user⟩
    ∧ alreadyLoggedInResponse.status = 409 := by
  refine ⟨?_, ?_, rfl⟩
  · simp [link, h]
  · simp [link_new, get_request_data, h]

/-- Witness for C7 at a logged-in user holding an old pending-link slot. -/
theorem c7_logged_in_link_start_no_remote_call_witness :
    link ⟨true, some ⟨"Link", "old", "d"⟩⟩ (some ⟨none, some "new-device"⟩) ⟨"s9", "sgnl://x"⟩
      = ⟨alreadyLoggedInResponse, false, ⟨true, some ⟨"Link", "old", "d"⟩⟩⟩
    ∧ link_new ⟨true, some ⟨"Link", "old", "d"⟩⟩ (some ⟨none, some "new-device"⟩) ⟨"s9", "sgnl://x"⟩
      = ⟨alreadyLoggedInResponse, false, ⟨true, some ⟨"Link", "old", "d"⟩⟩⟩
    ∧ alreadyLoggedInResponse.status = 409 :=
  c7_logged_in_link_start_no_remote_call ⟨true, some ⟨"Link", "old", "d"⟩⟩
    (some ⟨none, some "new-device"⟩) ⟨"s9", "sgnl://x"⟩ rfl

/-- C8: for every user with no pending link attempt (no stored
`command_status`, or a stored record whose action is not `"Link"`), the
legacy `link_wait` fails with HTTP 400 `"No Signal linking started"` and
never invokes the remote finish-link handshake. -/
theorem c8_wait_without_pending_rejected (user : UserState) (ev : AwaitEvent)
    (h : getPending user = none) :
    link_wait user ev =
      ⟨⟨400, RespBody.errorJson "No Signal linking started", headers⟩,
       false, false, none⟩ := by
  cases hcs : user.commandStatus with
  | none => simp [link_wait, hcs]
  | some cs =>
    have ha : ¬ cs.action = "Link" := by
      intro hEq
      simp [getPending, hcs, hEq] at h
    simp [link_wait, hcs, ha]

/-- Witness for C8 at a user whose stored record is not a link record. -/
theorem c8_wait_without_pending_rejected_witness :
    link_wait ⟨false, some ⟨"Help", "s", "d"⟩⟩ AwaitEvent.callerCancelled =
      ⟨⟨400, RespBody.errorJson "No Signal linking started", headers⟩,
       false, false, none⟩ :=
  c8_wait_without_pending_rejected ⟨false, some ⟨"Help", "s", "d"⟩⟩
    AwaitEvent.callerCancelled (by decide)

/-- C9: performing the legacy session-creating `link` twice leaves the
per-user pending slot holding exactly the second call's session id and
device name; every pending record still retrievable carries the second
session id, so the first one is no longer retrievable. -/
theorem c9_second_link_overwrites_slot
    (user : UserState) (b1 b2 : ReqBody) (s1 s2 : Session)
    (h : user.loggedIn = false) :
    getPending ((link ((link user (some b1) s1).newState) (some b2) s2).newState)
      = some ⟨"Link", s2.session_id, b2.device_name.getD "Mautrix-Signal bridge"⟩
    ∧ (∀ cs,
        getPending ((link ((link user (some b1) s1).newState) (some b2) s2).newState)
          = some cs → cs.session_id = s2.session_id) := by
  have key : getPending ((link ((link user (some b1) s1).newState) (some b2) s2).newState)
      = some ⟨"Link", s2.session_id, b2.device_name.getD "Mautrix-Signal bridge"⟩ := by
    simp [link, h, getPending]
  refine ⟨key, fun cs hcs => ?_⟩
  rw [key] at hcs
  injection hcs with h2
  subst h2
  rfl

/-- Witness for C9: two concrete `link` calls; only the second session id
survives in the slot. -/
theorem c9_second_link_overwrites_slot_witness :
    getPending ((link ((link ⟨false, none⟩ (some ⟨none, some "dev1"⟩) ⟨"s1", "u1"⟩).newState)
        (some ⟨none, some "dev2"⟩) ⟨"s2", "u2"⟩).newState)
      = some ⟨"Link", "s2", "dev2"⟩ :=
  (c9_second_link_overwrites_slot ⟨false, none⟩ ⟨none, some "dev1"⟩
    ⟨none, some "dev2"⟩ ⟨"s1", "u1"⟩ ⟨"s2", "u2"⟩ rfl).1

/-- C10: `check_token` never verifies the `"Bearer "` marker: for every
present Authorization header the credential compared to the shared secret
is the header minus its first seven characters, so any header whose tail
after position seven equals the secret is accepted regardless of what its
first seven characters are, and a present-but-short header (fewer than
seven characters) is compared as the empty credential and rejected as
forbidden (wrong secret), never as a malformed-header bad request. -/
theorem c10_check_token_ignores_bearer_marker (secret hdr uid p : String) :
    (hdr.drop 7 = secret →
      check_token secret (some hdr) (some uid) = AuthResult.ok uid)
    ∧ (hdr.drop 7 ≠ secret →
      check_token secret (some hdr) (some uid) = AuthResult.forbidden "Invalid token")
    ∧ (p.length = 7 →
      check_token secret (some (p ++ secret)) (some uid) = AuthResult.ok uid)
    ∧ (hdr.length < 7 → secret ≠ "" →
      check_token secret (some hdr) (some uid) = AuthResult.forbidden "Invalid token") := by
  have hmain : ∀ s : String, (s.drop 7 = secret →
      check_token secret (some s) (some uid) = AuthResult.ok uid)
      ∧ (s.drop 7 ≠ secret →
      check_token secret (some s) (some uid) = AuthResult.forbidden "Invalid token") := by
    intro s
    constructor <;> intro hs <;> simp [check_token, hs]
  refine ⟨(hmain hdr).1, (hmain hdr).2, fun hp => ?_, fun hlen hsec => ?_⟩
  · refine (hmain (p ++ secret)).1 ?_
    rw [String.drop_eq]
    have hd : (p ++ secret).data = p.data ++ secret.data := rfl
    have h7 : p.data.length = 7 := hp
    rw [hd, ← h7, List.drop_left]
  · refine (hmain hdr).2 ?_
    have hempty : hdr.drop 7 = "" := by
      rw [String.drop_eq]
      have : hdr.data.drop 7 = [] := List.drop_eq_nil_of_le (by exact Nat.le_of_lt hlen)
      rw [this]
    rw [hempty]
    exact fun hEq => hsec hEq.symm

/-- Witness for C10: a header with a non-Bearer seven-character head is
accepted; a four-character header is rejected as forbidden. -/
theorem c10_check_token_ignores_bearer_marker_witness :
    check_token "s3cr3t" (some "XXXXXXXs3cr3t") (some "@u:example.com")
      = AuthResult.ok "@u:example.com"
    ∧ check_token "s3cr3t" (some "Bear") (some "@u:example.com")
      = AuthResult.forbidden "Invalid token" :=
  ⟨(c10_check_token_ignores_bearer_marker "s3cr3t" "XXXXXXXs3cr3t"
      "@u:example.com" "p").1 (by decide),
   (c10_check_token_ignores_bearer_marker "s3cr3t" "Bear"
      "@u:example.com" "p").2.2.2 (by decide) (by decide)⟩

end Provisioning
